import Mathlib

/-!
Shallow embedding of the pyawg instrument-control library (files
src/pyawg/enums.py, src/pyawg/rigol.py, src/pyawg/siglent.py).

Each vendor method is modelled as a pure function from the dynamic Python
argument values to a pair `(trace, outcome)`:

* `trace` is the list of command strings handed to the transport
  (`self.write` / `self.query`) during the call — empty when validation
  raised before any command was sent;
* `outcome` is `Except.ok` for a normal return and `Except.error` for a
  raised exception.

The transport itself (the `AWG` base class, not part of the vendor files)
is passed in as a function: `wr : String → Bool` tells whether `write`
raises on a given command, `qr : String → Option String` gives the
response of `query` (or `none` when the query raises).

Python dynamic values are embedded as `PyValue`; `bool` is a separate
constructor from `int`, which models the CPython fact that
`type(True) is int` evaluates to `False` (all validations in the source
use exact `type(x) is T` identity checks for numbers and channels).
-/

namespace Pyawg

/-! ### Enumerations (src/pyawg/enums.py) -/

inductive AmplitudeUnit where
  | VPP
  | VRMS
  | DBM
deriving DecidableEq, Repr

def AmplitudeUnit.value : AmplitudeUnit → String
  | .VPP => "VPP"
  | .VRMS => "VRMS"
  | .DBM => "DBM"

inductive FrequencyUnit where
  | HZ
  | KHZ
  | MHZ
deriving DecidableEq, Repr

def FrequencyUnit.value : FrequencyUnit → String
  | .HZ => "HZ"
  | .KHZ => "KHZ"
  | .MHZ => "MHZ"

inductive BurstModeRigol where
  | TRIGGERED
  | INFINITY
  | GATED
deriving DecidableEq, Repr

def BurstModeRigol.value : BurstModeRigol → String
  | .TRIGGERED => "TRIG"
  | .INFINITY => "INF"
  | .GATED => "GAT"

inductive BurstModeSiglent where
  | NCYC
  | GATE
deriving DecidableEq, Repr

def BurstModeSiglent.value : BurstModeSiglent → String
  | .NCYC => "NCYC"
  | .GATE => "GATE"

inductive BurstTriggerSource where
  | INTERNAL
  | EXTERNAL
  | MANUAL
deriving DecidableEq, Repr

def BurstTriggerSource.value : BurstTriggerSource → String
  | .INTERNAL => "INT"
  | .EXTERNAL => "EXT"
  | .MANUAL => "MAN"

inductive WaveformType where
  | SINE
  | SQUARE
  | RAMP
  | PULSE
  | NOISE
  | DC
  | ARB
deriving DecidableEq, Repr

def WaveformType.value : WaveformType → String
  | .SINE => "SIN"
  | .SQUARE => "SQU"
  | .RAMP => "RAMP"
  | .PULSE => "PULS"
  | .NOISE => "NOIS"
  | .DC => "DC"
  | .ARB => "ARB"

/-- Modelled from the spec: the `OutputLoad` enumeration is imported by both
vendor files from `pyawg.enums` but its declaration is missing from the
sources at hand; per the spec (section 4.1) it is "a symbolic set including
an infinite/high-impedance sentinel".  The two members the vendor code
references are `OutputLoad.HZ` and `OutputLoad.INF`, both treated as that
sentinel. -/
inductive OutputLoad where
  | HZ
  | INF
deriving DecidableEq, Repr

/-! ### Dynamic Python values -/

/-- A dynamic Python value as the vendor methods can receive it.  `bool` is
deliberately distinct from `int`: the source validates numbers with exact
`type(x) is int` / `type(x) is float` identity checks, which reject `bool`
arguments (`type(True) is int` is `False` in Python). -/
inductive PyValue where
  | int (n : ℤ)
  | float (q : ℚ)
  | bool (b : Bool)
  | str (s : String)
  | ampUnit (u : AmplitudeUnit)
  | freqUnit (u : FrequencyUnit)
  | burstModeR (m : BurstModeRigol)
  | burstModeS (m : BurstModeSiglent)
  | trigSrc (t : BurstTriggerSource)
  | waveform (w : WaveformType)
  | outputLoad (l : OutputLoad)
deriving DecidableEq, Repr

/-- `type(x) is int` -/
def isIntV : PyValue → Bool
  | .int _ => true
  | _ => false

/-- `type(x) is float` -/
def isFloatV : PyValue → Bool
  | .float _ => true
  | _ => false

/-- `type(x) is bool` -/
def isBoolV : PyValue → Bool
  | .bool _ => true
  | _ => false

def isNumV (v : PyValue) : Bool := isFloatV v || isIntV v

/-- `isinstance(x, AmplitudeUnit)` -/
def isAmplitudeUnit : PyValue → Bool
  | .ampUnit _ => true
  | _ => false

/-- `isinstance(x, FrequencyUnit)` -/
def isFrequencyUnit : PyValue → Bool
  | .freqUnit _ => true
  | _ => false

/-- `isinstance(x, BurstModeRigol)` -/
def isBurstModeRigolV : PyValue → Bool
  | .burstModeR _ => true
  | _ => false

/-- `isinstance(x, BurstModeSiglent)` -/
def isBurstModeSiglentV : PyValue → Bool
  | .burstModeS _ => true
  | _ => false

/-- `isinstance(x, BurstTriggerSource)` -/
def isBurstTriggerSourceV : PyValue → Bool
  | .trigSrc _ => true
  | _ => false

/-- `isinstance(x, WaveformType)` -/
def isWaveformTypeV : PyValue → Bool
  | .waveform _ => true
  | _ => false

/-- `isinstance(x, OutputLoad)` -/
def isOutputLoadV : PyValue → Bool
  | .outputLoad _ => true
  | _ => false

/-- The exact numeric value of an `int`/`float` (used for range checks that
run only after the type check has passed; the other branches are
unreachable there). -/
def toRat : PyValue → ℚ
  | .int n => (n : ℚ)
  | .float q => q
  | .bool b => if b then 1 else 0
  | _ => 0

/-- `type(channel) is int and (channel == 1 or channel == 2)` — the
negation of every channel guard in the source. -/
def channelOk : PyValue → Bool
  | .int n => n == 1 || n == 2
  | _ => false

/-- Python float rendering inside an f-string.  Integral floats render with
a `.0` suffix as in Python; non-integral values use an abstract rendering
that no theorem depends on. -/
def floatStr (q : ℚ) : String :=
  if q.den = 1 then toString q.num ++ ".0" else toString q

/-- Rendering of a value inside an f-string (`str(x)`).  Enum members
render as `ClassName.MEMBER`, as Python's `Enum.__str__` does. -/
def pyStr : PyValue → String
  | .int n => toString n
  | .float q => floatStr q
  | .bool b => if b then "True" else "False"
  | .str s => s
  | .ampUnit u => "AmplitudeUnit." ++ u.value
  | .freqUnit u => "FrequencyUnit." ++ u.value
  | .burstModeR m => "BurstModeRigol." ++ m.value
  | .burstModeS m => "BurstModeSiglent." ++ m.value
  | .trigSrc t => "BurstTriggerSource." ++ t.value
  | .waveform w => "WaveformType." ++ w.value
  | .outputLoad l => "OutputLoad." ++ (match l with | .HZ => "HZ" | .INF => "INF")

/-- The Python type name, as interpolated into the TypeError messages.
The quote characters of the CPython rendering are elided. -/
def typeName : PyValue → String
  | .int _ => "<class int>"
  | .float _ => "<class float>"
  | .bool _ => "<class bool>"
  | .str _ => "<class str>"
  | .ampUnit _ => "<enum AmplitudeUnit>"
  | .freqUnit _ => "<enum FrequencyUnit>"
  | .burstModeR _ => "<enum BurstModeRigol>"
  | .burstModeS _ => "<enum BurstModeSiglent>"
  | .trigSrc _ => "<enum BurstTriggerSource>"
  | .waveform _ => "<enum WaveformType>"
  | .outputLoad _ => "<enum OutputLoad>"

/-- `.value` of an enum member (only ever applied after the corresponding
isinstance guard has passed). -/
def enumValue : PyValue → String
  | .ampUnit u => u.value
  | .freqUnit u => u.value
  | .burstModeR m => m.value
  | .burstModeS m => m.value
  | .trigSrc t => t.value
  | .waveform w => w.value
  | _ => ""

/-! ### Exceptions -/

/-- Modelled from the spec: the `pyawg.exceptions` module is star-imported
by both vendor files but missing from the sources at hand; per the spec
(section 7) the taxonomy is InvalidChannel / InvalidArgumentType /
OutOfRange / TransportFailure.  `invalidChannelNumber` carries the
offending channel value as the source constructs `InvalidChannelNumber(channel)`;
`typeErr` and `valueErr` are Python's builtin TypeError and ValueError with
their message; `keyErr` / `indexErr` are the builtin lookup errors that can
escape `get_channel_wave_parameter`; `transportErr` is a failure raised by
the transport's write/query. -/
inductive PyErr where
  | invalidChannelNumber (channel : PyValue)
  | typeErr (msg : String)
  | valueErr (msg : String)
  | keyErr (key : String)
  | indexErr
  | transportErr
deriving DecidableEq, Repr

/-- The validation-error classes of the spec taxonomy (section 7):
InvalidChannel, InvalidArgumentType (TypeError) and OutOfRange
(ValueError); transport failures and the lookup errors of the query parser
are not validation errors. -/
def PyErr.isValidationErr : PyErr → Bool
  | .invalidChannelNumber _ => true
  | .typeErr _ => true
  | .valueErr _ => true
  | _ => false

/-- An error that a validation guard can raise (the `raise` sites of the
`if`/`elif` chains at the top of every method). -/
inductive VErr where
  | invalidChannelNumber (channel : PyValue)
  | typeErr (msg : String)
  | valueErr (msg : String)
deriving DecidableEq, Repr

def VErr.toPyErr : VErr → PyErr
  | .invalidChannelNumber c => PyErr.invalidChannelNumber c
  | .typeErr m => PyErr.typeErr m
  | .valueErr m => PyErr.valueErr m

/-! ### Method skeleton -/

abbrev MethodResult := List String × Except PyErr Unit

/-- The `if cond: raise e / elif ...` chain at the top of every method:
the first guard whose condition is true raises its error (with nothing
sent to the transport); if no guard fires, the body `k` runs. -/
def guarded (gs : List (Bool × VErr)) (k : MethodResult) : MethodResult :=
  match gs with
  | [] => k
  | (b, e) :: rest => if b then ([], Except.error e.toPyErr) else guarded rest k

/-- `try: self.write(cmd) ... except ...: raise` — the transport failure is
re-raised to the caller. -/
def writeReraise (wr : String → Bool) (cmd : String) : Except PyErr Unit :=
  if wr cmd then Except.error PyErr.transportErr else Except.ok ()

/-- `try: self.write(cmd) ... except ...: logging.error(...)` — the
transport failure is only logged; the method returns normally either way. -/
def writeLogged (wr : String → Bool) (cmd : String) : Except PyErr Unit :=
  match wr cmd with
  | true => Except.ok ()
  | false => Except.ok ()

/-! ### RigolDG1000Z (src/pyawg/rigol.py) -/

def RigolDG1000Z.set_amplitude (wr : String → Bool) (channel amplitude unit : PyValue) :
    MethodResult :=
  let cmd := "SOUR" ++ pyStr channel ++ ":VOLT " ++ pyStr amplitude ++ enumValue unit
  guarded
    [(!channelOk channel, VErr.invalidChannelNumber channel),
     (!(isFloatV amplitude || isIntV amplitude),
       VErr.typeErr ("amplitude must be float or int; received " ++ typeName amplitude)),
     (!decide ((-10 : ℚ) ≤ toRat amplitude ∧ toRat amplitude ≤ 10),
       VErr.valueErr "amplitude must be between -/+ 10"),
     (!isAmplitudeUnit unit,
       VErr.typeErr "unit must be enum of type AmplitudeUnit. Hint: have you forgotten to import AmplitudeType from pyawg?")]
    ([cmd], writeReraise wr cmd)

def RigolDG1000Z.set_burst_delay (wr : String → Bool) (channel delay : PyValue) :
    MethodResult :=
  let cmd := "SOUR" ++ pyStr channel ++ ":BURS:TDEL " ++ pyStr delay
  guarded
    [(!channelOk channel, VErr.invalidChannelNumber channel),
     (!(isFloatV delay || isIntV delay),
       VErr.typeErr ("delay must be float or int; received " ++ typeName delay)),
     (decide (toRat delay < 0), VErr.valueErr "delay cannot be negative")]
    ([cmd], writeLogged wr cmd)

def RigolDG1000Z.set_burst_mode (wr : String → Bool) (channel burst_mode : PyValue) :
    MethodResult :=
  let cmd := "SOUR" ++ pyStr channel ++ ":BURS:MODE " ++ enumValue burst_mode
  guarded
    [(!channelOk channel, VErr.invalidChannelNumber channel),
     (!isBurstModeRigolV burst_mode,
       VErr.typeErr "burst_mode must be enum of type BurstModeRigol. Hint: have you forgotten to import BurstModeRigol from pyawg?")]
    ([cmd], writeLogged wr cmd)

def RigolDG1000Z.set_burst_period (wr : String → Bool) (channel period : PyValue) :
    MethodResult :=
  let cmd := "SOUR" ++ pyStr channel ++ ":BURS:INT:PER " ++ pyStr period
  guarded
    [(!channelOk channel, VErr.invalidChannelNumber channel),
     (!(isFloatV period || isIntV period),
       VErr.typeErr ("period must be float or int; received " ++ typeName period)),
     (decide (toRat period < 0), VErr.valueErr "period cannot be negative")]
    ([cmd], writeLogged wr cmd)

def RigolDG1000Z.set_burst_state (wr : String → Bool) (channel state : PyValue) :
    MethodResult :=
  let state_str := if state == PyValue.bool true then "ON" else "OFF"
  let cmd := "SOUR" ++ pyStr channel ++ ":BURS " ++ state_str
  guarded
    [(!channelOk channel, VErr.invalidChannelNumber channel),
     (!isBoolV state,
       VErr.typeErr ("state must be bool; received " ++ typeName state))]
    ([cmd], writeLogged wr cmd)

def RigolDG1000Z.set_burst_trigger_source (wr : String → Bool) (channel trigger_source : PyValue) :
    MethodResult :=
  let cmd := "SOUR" ++ pyStr channel ++ ":BURS:TRIG:SOUR " ++ enumValue trigger_source
  guarded
    [(!channelOk channel, VErr.invalidChannelNumber channel),
     (!isBurstTriggerSourceV trigger_source,
       VErr.typeErr "trigger_source must be enum of type BurstTriggerSource. Hint: have you forgotten to import BurstTriggerSource from pyawg?")]
    ([cmd], writeLogged wr cmd)

def RigolDG1000Z.set_frequency (wr : String → Bool) (channel frequency unit : PyValue) :
    MethodResult :=
  let cmd := "SOUR" ++ pyStr channel ++ ":FREQ " ++ pyStr frequency ++ enumValue unit
  guarded
    [(!channelOk channel, VErr.invalidChannelNumber channel),
     (!(isFloatV frequency || isIntV frequency),
       VErr.typeErr ("frequency must be float or int; received " ++ typeName frequency)),
     (decide (toRat frequency < 0), VErr.valueErr "frequency cannot be negative"),
     (!isFrequencyUnit unit,
       VErr.typeErr "unit must be enum of type FrequencyUnit. Hint: did you forget to import FrequencyUnit from pyawg?")]
    ([cmd], writeReraise wr cmd)

def RigolDG1000Z.set_offset (wr : String → Bool) (channel offset_voltage : PyValue) :
    MethodResult :=
  let cmd := "SOUR" ++ pyStr channel ++ ":VOLT:OFFS " ++ pyStr offset_voltage
  guarded
    [(!channelOk channel, VErr.invalidChannelNumber channel),
     (!(isFloatV offset_voltage || isIntV offset_voltage),
       VErr.typeErr ("offset_voltage must be float or int; received " ++ typeName offset_voltage))]
    ([cmd], writeReraise wr cmd)

def RigolDG1000Z.set_output (wr : String → Bool) (channel state : PyValue) :
    MethodResult :=
  let state_str := if state == PyValue.bool true then "ON" else "OFF"
  let cmd := "OUTP" ++ pyStr channel ++ " " ++ state_str
  guarded
    [(!channelOk channel, VErr.invalidChannelNumber channel),
     (!isBoolV state,
       VErr.typeErr ("state must be bool; received " ++ typeName state))]
    ([cmd], writeLogged wr cmd)

/-- `if load == OutputLoad.HZ or load == OutputLoad.INF: load = 'INF'` —
the vendor-specific token of the high-impedance sentinel (Rigol: `INF`). -/
def RigolDG1000Z.loadToken (load : PyValue) : String :=
  match load with
  | .outputLoad _ => "INF"
  | v => pyStr v

def RigolDG1000Z.set_output_load (wr : String → Bool) (channel load : PyValue) :
    MethodResult :=
  let cmd := "OUTP" ++ pyStr channel ++ ":LOAD " ++ RigolDG1000Z.loadToken load
  guarded
    [(!channelOk channel, VErr.invalidChannelNumber channel),
     (!(isFloatV load || isIntV load || isOutputLoadV load),
       VErr.typeErr ("load must be float or int or enum of type OutputLoad; received " ++ typeName load ++ ". Hint: did you forget to import OutputLoad from pyawg?"))]
    ([cmd], writeLogged wr cmd)

def RigolDG1000Z.set_phase (wr : String → Bool) (channel phase : PyValue) :
    MethodResult :=
  let cmd := "SOUR" ++ pyStr channel ++ ":PHAS " ++ pyStr phase
  guarded
    [(!channelOk channel, VErr.invalidChannelNumber channel),
     (!(isFloatV phase || isIntV phase),
       VErr.typeErr ("phase must be float or int; received " ++ typeName phase)),
     (!decide ((0 : ℚ) ≤ |toRat phase| ∧ |toRat phase| ≤ 360),
       VErr.valueErr "phase must be between 0 and 360")]
    ([cmd], writeReraise wr cmd)

def RigolDG1000Z.set_waveform (wr : String → Bool) (channel waveform_type : PyValue) :
    MethodResult :=
  let cmd := "SOUR" ++ pyStr channel ++ ":FUNC " ++ enumValue waveform_type
  guarded
    [(!channelOk channel, VErr.invalidChannelNumber channel),
     (!isWaveformTypeV waveform_type,
       VErr.typeErr "waveform_type must be enum of type WaveformType. Hint: have you forgotten to import WaveformType from pyawg?")]
    ([cmd], writeReraise wr cmd)

def RigolDG1000Z.sync_phase (wr : String → Bool) (channel : PyValue) : MethodResult :=
  let cmd := "SOUR" ++ pyStr channel ++ ":PHAS:SYNC"
  guarded
    [(!channelOk channel, VErr.invalidChannelNumber channel)]
    ([cmd], writeReraise wr cmd)

def RigolDG1000Z.trigger_burst (wr : String → Bool) (channel : PyValue) : MethodResult :=
  let cmd := "SOUR" ++ pyStr channel ++ ":BURS:TRIG"
  guarded
    [(!channelOk channel, VErr.invalidChannelNumber channel)]
    ([cmd], writeLogged wr cmd)

/-! ### SiglentSDG1000X query parser (src/pyawg/siglent.py, get_channel_wave_parameter) -/

/-- Python `str.split(sep)` for a single-character separator, on a
character list: splits at every separator occurrence, keeping empty
fields.  The separator is given as a predicate so no character literal is
needed. -/
def splitOnPred (isSep : Char → Bool) : List Char → List (List Char)
  | [] => [[]]
  | c :: rest =>
    match splitOnPred isSep rest with
    | [] => [[c]]
    | h :: t => if isSep c then [] :: h :: t else (c :: h) :: t

/-- Python `str.split(sep)` for a single-character separator. -/
def pySplit (isSep : Char → Bool) (s : String) : List String :=
  (splitOnPred isSep s.toList).map (fun cs => String.mk cs)

def isSpaceChar (c : Char) : Bool := c.toNat == 32

def isCommaChar (c : Char) : Bool := c.toNat == 44

def isQuoteChar (c : Char) : Bool := c.toNat == 39

/-- Python `str.strip(chars)` for the single-quote character: removes all
leading and trailing quote characters. -/
def pyStripQuote (s : String) : String :=
  String.mk (((s.toList.dropWhile isQuoteChar).reverse.dropWhile isQuoteChar).reverse)

/-- Python list slice `[::2]` (every other element, starting at index 0). -/
def everyOther {α : Type} : List α → List α
  | [] => []
  | [a] => [a]
  | a :: _ :: rest => a :: everyOther rest

/-- Lookup in the dict built by `dict(zip(keys, values))`: on duplicate
keys the later pair wins, hence the reversal. -/
def dictGet (params : List (String × String)) (k : String) : Option String :=
  params.reverse.lookup k

/-- The body of `get_channel_wave_parameter` after the query succeeded and
its raw response is at hand:
`response = raw.split(' ')[1]`, then
`params = dict(zip(response.strip("'").split(',')[::2], response.strip("'").split(',')[1::2]))`,
then the `result_dict` lookup.  `params.get(k)` yields Python `None`
(`Option.none`) for an absent wire key, while `result_dict[parameter]`
raises `KeyError` for a parameter name outside the eight supported ones;
a missing index 1 raises `IndexError`.  All exceptions are re-raised by
the method's `except` block. -/
def parseWaveResponse (raw : String) (parameter : String) : Except PyErr (Option String) :=
  match (pySplit isSpaceChar raw).get? 1 with
  | none => Except.error PyErr.indexErr
  | some response =>
    let fields := pySplit isCommaChar (pyStripQuote response)
    let params := (everyOther fields).zip (everyOther fields.tail)
    let result_dict : List (String × Option String) :=
      [("waveform_type", dictGet params "WVTP"),
       ("frequency", dictGet params "FRQ"),
       ("period", dictGet params "PERI"),
       ("amplitude", dictGet params "AMP"),
       ("offset", dictGet params "OFST"),
       ("high_level", dictGet params "HLEV"),
       ("low_level", dictGet params "LLEV"),
       ("phase", dictGet params "PHSE")]
    match result_dict.lookup parameter with
    | none => Except.error (PyErr.keyErr parameter)
    | some v => Except.ok v

/-! ### SiglentSDG1000X (src/pyawg/siglent.py) -/

/-- `get_channel_wave_parameter` performs no validation at all: the query
`f"C{channel}BSWV?"` is formatted and handed to the transport for any
channel value, and every failure inside the `try` block (transport query,
index, key lookup) is logged and re-raised. -/
def SiglentSDG1000X.get_channel_wave_parameter (qr : String → Option String)
    (channel : PyValue) (parameter : String) :
    List String × Except PyErr (Option String) :=
  let cmd := "C" ++ pyStr channel ++ "BSWV?"
  ([cmd],
    match qr cmd with
    | none => Except.error PyErr.transportErr
    | some raw => parseWaveResponse raw parameter)

def SiglentSDG1000X.set_amplitude (wr : String → Bool) (channel amplitude unit : PyValue) :
    MethodResult :=
  let cmd := "C" ++ pyStr channel ++ ":BSWV AMP," ++ pyStr amplitude
  guarded
    [(!channelOk channel, VErr.invalidChannelNumber channel),
     (!(isFloatV amplitude || isIntV amplitude),
       VErr.typeErr ("amplitude must be float or int; received " ++ typeName amplitude)),
     (!decide ((-10 : ℚ) ≤ toRat amplitude ∧ toRat amplitude ≤ 10),
       VErr.valueErr "amplitude must be between -/+ 10"),
     (!isAmplitudeUnit unit,
       VErr.typeErr "unit must be enum of type AmplitudeUnit. Hint: have you forgotten to import AmplitudeType from pyawg?")]
    ([cmd], writeReraise wr cmd)

def SiglentSDG1000X.set_burst_delay (wr : String → Bool) (channel delay : PyValue) :
    MethodResult :=
  let cmd := "C" ++ pyStr channel ++ ":BTWV DEL," ++ pyStr delay
  guarded
    [(!channelOk channel, VErr.invalidChannelNumber channel),
     (!(isFloatV delay || isIntV delay),
       VErr.typeErr ("delay must be float or int; received " ++ typeName delay)),
     (decide (toRat delay < 0), VErr.valueErr "delay cannot be negative")]
    ([cmd], writeLogged wr cmd)

def SiglentSDG1000X.set_burst_mode (wr : String → Bool) (channel burst_mode : PyValue) :
    MethodResult :=
  let cmd := "C" ++ pyStr channel ++ ":BTWV GATE_NCYC," ++ enumValue burst_mode
  guarded
    [(!channelOk channel, VErr.invalidChannelNumber channel),
     (!isBurstModeSiglentV burst_mode,
       VErr.typeErr "burst_mode must be enum of type BurstModeSiglent. Hint: have you forgotten to import BurstModeSiglent from pyawg?")]
    ([cmd], writeLogged wr cmd)

def SiglentSDG1000X.set_burst_period (wr : String → Bool) (channel period : PyValue) :
    MethodResult :=
  let cmd := "C" ++ pyStr channel ++ ":BTWV PRD," ++ pyStr period
  guarded
    [(!channelOk channel, VErr.invalidChannelNumber channel),
     (!(isFloatV period || isIntV period),
       VErr.typeErr ("period must be float or int; received " ++ typeName period)),
     (decide (toRat period < 0), VErr.valueErr "period cannot be negative")]
    ([cmd], writeLogged wr cmd)

def SiglentSDG1000X.set_burst_state (wr : String → Bool) (channel state : PyValue) :
    MethodResult :=
  let state_str := if state == PyValue.bool true then "ON" else "OFF"
  let cmd := "C" ++ pyStr channel ++ ":BTWV STATE," ++ state_str
  guarded
    [(!channelOk channel, VErr.invalidChannelNumber channel),
     (!isBoolV state,
       VErr.typeErr ("state must be bool; received " ++ typeName state))]
    ([cmd], writeLogged wr cmd)

def SiglentSDG1000X.set_burst_trigger_source (wr : String → Bool) (channel trigger_source : PyValue) :
    MethodResult :=
  let cmd := "C" ++ pyStr channel ++ ":BTWV TRSR," ++ enumValue trigger_source
  guarded
    [(!channelOk channel, VErr.invalidChannelNumber channel),
     (!isBurstTriggerSourceV trigger_source,
       VErr.typeErr "trigger_source must be enum of type BurstTriggerSource. Hint: have you forgotten to import BurstTriggerSource from pyawg?")]
    ([cmd], writeLogged wr cmd)

/-- `converted_frequency = frequency; if unit == FrequencyUnit.KHZ:
converted_frequency = frequency * 1000; elif unit == FrequencyUnit.MHZ:
converted_frequency = frequency * 1000000` (int stays int, float stays
float, exactly as Python multiplication by an int literal behaves). -/
def SiglentSDG1000X.convert_frequency (frequency : PyValue) (unit : PyValue) : PyValue :=
  if unit == PyValue.freqUnit FrequencyUnit.KHZ then
    match frequency with
    | .int n => .int (n * 1000)
    | .float q => .float (q * 1000)
    | v => v
  else if unit == PyValue.freqUnit FrequencyUnit.MHZ then
    match frequency with
    | .int n => .int (n * 1000000)
    | .float q => .float (q * 1000000)
    | v => v
  else frequency

def SiglentSDG1000X.set_frequency (wr : String → Bool) (channel frequency unit : PyValue) :
    MethodResult :=
  let cmd := "C" ++ pyStr channel ++ ":BSWV FRQ," ++
    pyStr (SiglentSDG1000X.convert_frequency frequency unit)
  guarded
    [(!channelOk channel, VErr.invalidChannelNumber channel),
     (!(isFloatV frequency || isIntV frequency),
       VErr.typeErr ("frequency must be float or int; received " ++ typeName frequency)),
     (decide (toRat frequency < 0), VErr.valueErr "frequency cannot be negative"),
     (!isFrequencyUnit unit,
       VErr.typeErr "unit must be enum of type FrequencyUnit. Hint: did you forget to import FrequencyUnit from pyawg?")]
    ([cmd], writeReraise wr cmd)

def SiglentSDG1000X.set_offset (wr : String → Bool) (channel offset_voltage : PyValue) :
    MethodResult :=
  let cmd := "C" ++ pyStr channel ++ ":BSWV OFST," ++ pyStr offset_voltage
  guarded
    [(!channelOk channel, VErr.invalidChannelNumber channel),
     (!(isFloatV offset_voltage || isIntV offset_voltage),
       VErr.typeErr ("offset_voltage must be float or int; received " ++ typeName offset_voltage))]
    ([cmd], writeReraise wr cmd)

def SiglentSDG1000X.set_output (wr : String → Bool) (channel state : PyValue) :
    MethodResult :=
  let state_str := if state == PyValue.bool true then "ON" else "OFF"
  let cmd := "C" ++ pyStr channel ++ ":OUTP " ++ state_str
  guarded
    [(!channelOk channel, VErr.invalidChannelNumber channel),
     (!isBoolV state,
       VErr.typeErr ("state must be bool; received " ++ typeName state))]
    ([cmd], writeLogged wr cmd)

/-- `if load == OutputLoad.HZ or load == OutputLoad.INF: load = 'HZ'` —
the vendor-specific token of the high-impedance sentinel (Siglent: `HZ`). -/
def SiglentSDG1000X.loadToken (load : PyValue) : String :=
  match load with
  | .outputLoad _ => "HZ"
  | v => pyStr v

def SiglentSDG1000X.set_output_load (wr : String → Bool) (channel load : PyValue) :
    MethodResult :=
  let cmd := "C" ++ pyStr channel ++ ":OUTP LOAD," ++ SiglentSDG1000X.loadToken load
  guarded
    [(!channelOk channel, VErr.invalidChannelNumber channel),
     (!(isFloatV load || isIntV load || isOutputLoadV load),
       VErr.typeErr ("load must be float or int or enum of type OutputLoad; received " ++ typeName load ++ ". Hint: did you forget to import OutputLoad from pyawg?"))]
    ([cmd], writeLogged wr cmd)

def SiglentSDG1000X.set_phase (wr : String → Bool) (channel phase : PyValue) :
    MethodResult :=
  let cmd := "C" ++ pyStr channel ++ ":BSWV PHSE," ++ pyStr phase
  guarded
    [(!channelOk channel, VErr.invalidChannelNumber channel),
     (!(isFloatV phase || isIntV phase),
       VErr.typeErr ("phase must be float or int; received " ++ typeName phase)),
     (!decide ((0 : ℚ) ≤ |toRat phase| ∧ |toRat phase| ≤ 360),
       VErr.valueErr "phase must be between 0 and 360")]
    ([cmd], writeReraise wr cmd)

def SiglentSDG1000X.set_waveform (wr : String → Bool) (channel waveform_type : PyValue) :
    MethodResult :=
  let cmd := "C" ++ pyStr channel ++ ":BSWV WVTP," ++ enumValue waveform_type
  guarded
    [(!channelOk channel, VErr.invalidChannelNumber channel),
     (!isWaveformTypeV waveform_type,
       VErr.typeErr "waveform_type must be enum of type WaveformType. Hint: have you forgotten to import WaveformType from pyawg?")]
    ([cmd], writeReraise wr cmd)

/-- `sync_phase` of the Siglent class takes a `_channel` parameter that is
purposely unused (per its own docstring, kept only for signature
uniformity): no validation is performed and the fixed command `EQPHASE`
is always written; a transport failure is re-raised. -/
def SiglentSDG1000X.sync_phase (wr : String → Bool) (_channel : PyValue) : MethodResult :=
  (["EQPHASE"], writeReraise wr "EQPHASE")

def SiglentSDG1000X.trigger_burst (wr : String → Bool) (channel : PyValue) : MethodResult :=
  let cmd := "C" ++ pyStr channel ++ ":BTWV MTRIG"
  guarded
    [(!channelOk channel, VErr.invalidChannelNumber channel)]
    ([cmd], writeLogged wr cmd)

/-! ### Generic lemmas about the method skeleton -/

theorem writeLogged_eq (wr : String → Bool) (cmd : String) :
    writeLogged wr cmd = Except.ok () := by
  unfold writeLogged
  cases wr cmd <;> rfl

theorem VErr.toPyErr_isValidation (v : VErr) : v.toPyErr.isValidationErr = true := by
  cases v <;> rfl

theorem VErr.toPyErr_ne_transport (v : VErr) : v.toPyErr ≠ PyErr.transportErr := by
  cases v <;> simp [VErr.toPyErr]

/-- A method run either reaches its body or stops at the first firing
guard with an empty trace and that guard's validation error. -/
theorem guarded_cases (gs : List (Bool × VErr)) (k : MethodResult) :
    guarded gs k = k ∨ ∃ v : VErr, guarded gs k = ([], Except.error v.toPyErr) := by
  induction gs with
  | nil => exact Or.inl rfl
  | cons g rest ih =>
    obtain ⟨b, e⟩ := g
    cases b
    · simpa [guarded] using ih
    · exact Or.inr ⟨e, rfl⟩

/-- A re-raising method whose trace shows a sent command propagates the
transport failure on that command. -/
theorem guarded_reraise_propagates (gs : List (Bool × VErr)) (wr : String → Bool)
    (c cmd : String) (h : (guarded gs ([c], writeReraise wr c)).1 = [cmd])
    (hw : wr cmd = true) :
    (guarded gs ([c], writeReraise wr c)).2 = Except.error PyErr.transportErr := by
  rcases guarded_cases gs ([c], writeReraise wr c) with hc | ⟨v, hc⟩
  · rw [hc] at h ⊢
    have hcc : c = cmd := by simpa using h
    subst hcc
    simp [writeReraise, hw]
  · rw [hc] at h
    simp at h

/-- A logging-only method that sent its command returns normally, whatever
the transport did. -/
theorem guarded_logged_ok (gs : List (Bool × VErr)) (wr : String → Bool)
    (c cmd : String) (h : (guarded gs ([c], writeLogged wr c)).1 = [cmd]) :
    (guarded gs ([c], writeLogged wr c)).2 = Except.ok () := by
  rcases guarded_cases gs ([c], writeLogged wr c) with hc | ⟨v, hc⟩
  · rw [hc]
    exact writeLogged_eq wr c
  · rw [hc] at h
    simp at h

/-- A logging-only method never raises a transport failure. -/
theorem guarded_logged_no_transport (gs : List (Bool × VErr)) (wr : String → Bool)
    (c : String) :
    (guarded gs ([c], writeLogged wr c)).2 ≠ Except.error PyErr.transportErr := by
  rcases guarded_cases gs ([c], writeLogged wr c) with hc | ⟨v, hc⟩
  · rw [hc]
    simp [writeLogged_eq]
  · rw [hc]
    simp [VErr.toPyErr_ne_transport]

/-- If a re-raising method ends in a validation error, its trace is empty:
nothing was handed to the transport. -/
theorem guarded_reraise_validation (gs : List (Bool × VErr)) (wr : String → Bool)
    (c : String) (e : PyErr)
    (h : (guarded gs ([c], writeReraise wr c)).2 = Except.error e)
    (hv : e.isValidationErr = true) :
    (guarded gs ([c], writeReraise wr c)).1 = [] := by
  rcases guarded_cases gs ([c], writeReraise wr c) with hc | ⟨v, hc⟩
  · rw [hc] at h
    unfold writeReraise at h
    split at h
    · cases h
      cases hv
    · cases h
  · rw [hc]

/-- If a logging-only method ends in a validation error, its trace is
empty. -/
theorem guarded_logged_validation (gs : List (Bool × VErr)) (wr : String → Bool)
    (c : String) (e : PyErr)
    (h : (guarded gs ([c], writeLogged wr c)).2 = Except.error e)
    (_hv : e.isValidationErr = true) :
    (guarded gs ([c], writeLogged wr c)).1 = [] := by
  rcases guarded_cases gs ([c], writeLogged wr c) with hc | ⟨v, hc⟩
  · rw [hc] at h
    rw [writeLogged_eq] at h
    cases h
  · rw [hc]

/-- Firing channel guard: every method whose guard chain starts with the
channel check raises `InvalidChannelNumber` with an empty trace when the
channel is invalid. -/
theorem guarded_channel_guard (ch : PyValue) (rest : List (Bool × VErr)) (k : MethodResult)
    (hch : channelOk ch = false) :
    guarded ((!channelOk ch, VErr.invalidChannelNumber ch) :: rest) k =
      ([], Except.error (PyErr.invalidChannelNumber ch)) := by
  simp [guarded, hch, VErr.toPyErr]

/-- The errors that can escape `parseWaveResponse` are lookup errors, not
validation errors. -/
theorem parseWaveResponse_err (raw parameter : String) (e : PyErr)
    (h : parseWaveResponse raw parameter = Except.error e) :
    e.isValidationErr = false := by
  unfold parseWaveResponse at h
  split at h
  · cases h
    rfl
  · dsimp only at h
    split at h
    · cases h
      rfl
    · cases h

/-! ### Claim C1 -/

/-- C1: the claim puts `trigger_burst` among the operations that propagate
a transport write failure, and the method docstrings of both vendor
classes agree ("Raises: ... Exception: If there is an error while sending
the trigger command to the device"); but the `except` block of
`trigger_burst` in both classes (rigol.py lines 480-484, siglent.py lines
525-529) only logs the failure and, unlike `set_amplitude` and the other
re-raising setters, contains no `raise`.  This theorem evaluates the code
at the failing input: with a transport whose every write raises and the
valid channel 1, `trigger_burst` of both classes sends its trigger command
and still returns normally, while `set_amplitude` under the same failing
transport propagates the failure, exactly as the claim describes for the
re-raising group. -/
theorem C1_trigger_burst_swallows_transport_failure :
    RigolDG1000Z.trigger_burst (fun _ => true) (PyValue.int 1) =
      (["SOUR1:BURS:TRIG"], Except.ok ()) ∧
    SiglentSDG1000X.trigger_burst (fun _ => true) (PyValue.int 1) =
      (["C1:BTWV MTRIG"], Except.ok ()) ∧
    (RigolDG1000Z.set_amplitude (fun _ => true) (PyValue.int 1) (PyValue.int 5)
        (PyValue.ampUnit AmplitudeUnit.VPP)).2 = Except.error PyErr.transportErr ∧
    (SiglentSDG1000X.set_amplitude (fun _ => true) (PyValue.int 1) (PyValue.int 5)
        (PyValue.ampUnit AmplitudeUnit.VPP)).2 = Except.error PyErr.transportErr :=
  ⟨rfl, rfl, rfl, rfl⟩

/-! ### Claim C2 -/

/-- C2 counterexample: `SiglentSDG1000X.get_channel_wave_parameter`
performs no channel validation at all.  With the invalid channel 3 it
formats the query `C3BSWV?`, hands it to the transport, and returns the
parsed value instead of raising `InvalidChannel(Number)` — refuting the
claim that every public operation of both vendor classes validates the
channel before any command is formatted or sent. -/
theorem C2_counterexample_get_parameter_skips_channel_check :
    SiglentSDG1000X.get_channel_wave_parameter
        (fun _ => Option.some "C3:BSWV FRQ,1000") (PyValue.int 3) "frequency" =
      (["C3BSWV?"], Except.ok (Option.some "1000")) :=
  rfl

/-- C2 (amended): for every channel value that is not the integer 1 or 2,
every public operation of both vendor classes raises
`InvalidChannelNumber` with nothing handed to the transport — except the
two Siglent operations that do not validate the channel:
`SiglentSDG1000X.sync_phase` deliberately ignores its `_channel` argument
and always writes the fixed command `EQPHASE`, and
`SiglentSDG1000X.get_channel_wave_parameter` interpolates any channel
value straight into the query it sends. -/
theorem C2_invalid_channel_rejected_first (wr : String → Bool)
    (qr : String → Option String) (ch v u : PyValue) (p : String)
    (hch : channelOk ch = false) :
    RigolDG1000Z.set_amplitude wr ch v u = ([], Except.error (PyErr.invalidChannelNumber ch)) ∧
    RigolDG1000Z.set_burst_delay wr ch v = ([], Except.error (PyErr.invalidChannelNumber ch)) ∧
    RigolDG1000Z.set_burst_mode wr ch v = ([], Except.error (PyErr.invalidChannelNumber ch)) ∧
    RigolDG1000Z.set_burst_period wr ch v = ([], Except.error (PyErr.invalidChannelNumber ch)) ∧
    RigolDG1000Z.set_burst_state wr ch v = ([], Except.error (PyErr.invalidChannelNumber ch)) ∧
    RigolDG1000Z.set_burst_trigger_source wr ch v = ([], Except.error (PyErr.invalidChannelNumber ch)) ∧
    RigolDG1000Z.set_frequency wr ch v u = ([], Except.error (PyErr.invalidChannelNumber ch)) ∧
    RigolDG1000Z.set_offset wr ch v = ([], Except.error (PyErr.invalidChannelNumber ch)) ∧
    RigolDG1000Z.set_output wr ch v = ([], Except.error (PyErr.invalidChannelNumber ch)) ∧
    RigolDG1000Z.set_output_load wr ch v = ([], Except.error (PyErr.invalidChannelNumber ch)) ∧
    RigolDG1000Z.set_phase wr ch v = ([], Except.error (PyErr.invalidChannelNumber ch)) ∧
    RigolDG1000Z.set_waveform wr ch v = ([], Except.error (PyErr.invalidChannelNumber ch)) ∧
    RigolDG1000Z.sync_phase wr ch = ([], Except.error (PyErr.invalidChannelNumber ch)) ∧
    RigolDG1000Z.trigger_burst wr ch = ([], Except.error (PyErr.invalidChannelNumber ch)) ∧
    SiglentSDG1000X.set_amplitude wr ch v u = ([], Except.error (PyErr.invalidChannelNumber ch)) ∧
    SiglentSDG1000X.set_burst_delay wr ch v = ([], Except.error (PyErr.invalidChannelNumber ch)) ∧
    SiglentSDG1000X.set_burst_mode wr ch v = ([], Except.error (PyErr.invalidChannelNumber ch)) ∧
    SiglentSDG1000X.set_burst_period wr ch v = ([], Except.error (PyErr.invalidChannelNumber ch)) ∧
    SiglentSDG1000X.set_burst_state wr ch v = ([], Except.error (PyErr.invalidChannelNumber ch)) ∧
    SiglentSDG1000X.set_burst_trigger_source wr ch v = ([], Except.error (PyErr.invalidChannelNumber ch)) ∧
    SiglentSDG1000X.set_frequency wr ch v u = ([], Except.error (PyErr.invalidChannelNumber ch)) ∧
    SiglentSDG1000X.set_offset wr ch v = ([], Except.error (PyErr.invalidChannelNumber ch)) ∧
    SiglentSDG1000X.set_output wr ch v = ([], Except.error (PyErr.invalidChannelNumber ch)) ∧
    SiglentSDG1000X.set_output_load wr ch v = ([], Except.error (PyErr.invalidChannelNumber ch)) ∧
    SiglentSDG1000X.set_phase wr ch v = ([], Except.error (PyErr.invalidChannelNumber ch)) ∧
    SiglentSDG1000X.set_waveform wr ch v = ([], Except.error (PyErr.invalidChannelNumber ch)) ∧
    SiglentSDG1000X.trigger_burst wr ch = ([], Except.error (PyErr.invalidChannelNumber ch)) ∧
    (SiglentSDG1000X.sync_phase wr ch).1 = ["EQPHASE"] ∧
    (SiglentSDG1000X.get_channel_wave_parameter qr ch p).1 = ["C" ++ pyStr ch ++ "BSWV?"] := by
  refine ⟨?_, ?_, ?_, ?_, ?_, ?_, ?_, ?_, ?_, ?_, ?_, ?_, ?_, ?_, ?_, ?_, ?_, ?_, ?_, ?_,
    ?_, ?_, ?_, ?_, ?_, ?_, ?_, rfl, rfl⟩ <;>
    exact guarded_channel_guard ch _ _ hch

/-- C2 witness: the amended theorem applied to channel 3. -/
theorem C2_invalid_channel_witness :
    RigolDG1000Z.set_amplitude (fun _ => false) (PyValue.int 3) (PyValue.int 0)
        (PyValue.ampUnit AmplitudeUnit.VPP) =
      ([], Except.error (PyErr.invalidChannelNumber (PyValue.int 3))) :=
  (C2_invalid_channel_rejected_first (fun _ => false) (fun _ => Option.none)
    (PyValue.int 3) (PyValue.int 0) (PyValue.ampUnit AmplitudeUnit.VPP) "x" rfl).1

/-! ### Claim C3 -/

/-- A synthetic well-formed `C1:BSWV?` response carrying all eight wire
keys the parser knows. -/
def sampleWaveResponse : String :=
  "C1:BSWV WVTP,SINE,FRQ,1000,PERI,0.001,AMP,2,OFST,0,HLEV,1,LLEV,-1,PHSE,45"

/-- A transport whose query always answers with `sampleWaveResponse`. -/
def sampleQr : String → Option String := fun _ => Option.some sampleWaveResponse

/-- C3 counterexample: when the requested key is absent from the response,
`get_channel_wave_parameter` does not fail — `params.get` yields Python
`None`, the `result_dict` lookup succeeds, and `None` is returned
normally.  Here the response carries only `WVTP`, yet requesting
`frequency` returns `None` instead of raising, refuting the claim that
the method "fails with an error when the requested key is absent from the
response". -/
theorem C3_counterexample_absent_key_returns_none :
    (SiglentSDG1000X.get_channel_wave_parameter
        (fun _ => Option.some "C1:BSWV WVTP,SINE") (PyValue.int 1) "frequency").2 =
      Except.ok Option.none :=
  rfl

/-- C3 (amended): given a well-formed query response containing known
key/value pairs, `get_channel_wave_parameter` returns the exact value
associated with each of the 8 supported parameter names; when the
requested name's wire key is absent from the response it returns Python
`None` (no error); it fails with an error only when the requested
parameter name is not one of the 8 supported names (`KeyError`) or the
transport query itself fails. -/
theorem C3_query_parser_roundtrip :
    SiglentSDG1000X.get_channel_wave_parameter sampleQr (PyValue.int 1) "waveform_type" =
      (["C1BSWV?"], Except.ok (Option.some "SINE")) ∧
    SiglentSDG1000X.get_channel_wave_parameter sampleQr (PyValue.int 1) "frequency" =
      (["C1BSWV?"], Except.ok (Option.some "1000")) ∧
    SiglentSDG1000X.get_channel_wave_parameter sampleQr (PyValue.int 1) "period" =
      (["C1BSWV?"], Except.ok (Option.some "0.001")) ∧
    SiglentSDG1000X.get_channel_wave_parameter sampleQr (PyValue.int 1) "amplitude" =
      (["C1BSWV?"], Except.ok (Option.some "2")) ∧
    SiglentSDG1000X.get_channel_wave_parameter sampleQr (PyValue.int 1) "offset" =
      (["C1BSWV?"], Except.ok (Option.some "0")) ∧
    SiglentSDG1000X.get_channel_wave_parameter sampleQr (PyValue.int 1) "high_level" =
      (["C1BSWV?"], Except.ok (Option.some "1")) ∧
    SiglentSDG1000X.get_channel_wave_parameter sampleQr (PyValue.int 1) "low_level" =
      (["C1BSWV?"], Except.ok (Option.some "-1")) ∧
    SiglentSDG1000X.get_channel_wave_parameter sampleQr (PyValue.int 1) "phase" =
      (["C1BSWV?"], Except.ok (Option.some "45")) ∧
    SiglentSDG1000X.get_channel_wave_parameter
        (fun _ => Option.some "C1:BSWV WVTP,SINE,FRQ,1000") (PyValue.int 1) "amplitude" =
      (["C1BSWV?"], Except.ok Option.none) ∧
    SiglentSDG1000X.get_channel_wave_parameter sampleQr (PyValue.int 1) "foo" =
      (["C1BSWV?"], Except.error (PyErr.keyErr "foo")) ∧
    SiglentSDG1000X.get_channel_wave_parameter (fun _ => Option.none) (PyValue.int 1) "frequency" =
      (["C1BSWV?"], Except.error PyErr.transportErr) :=
  ⟨rfl, rfl, rfl, rfl, rfl, rfl, rfl, rfl, rfl, rfl, rfl⟩

/-! ### Claim C4 -/

/-- C4: with `frequency=2` and `unit=KHZ` on a valid channel, the Siglent
class normalizes to base units and emits `C{ch}:BSWV FRQ,2000` (no unit
suffix), while the Rigol class emits the literal value-with-suffix
`SOUR{ch}:FREQ 2KHZ`; and in general the Siglent conversion multiplies the
numeric value by 1 for HZ, 1000 for KHZ and 1000000 for MHZ. -/
theorem C4_frequency_unit_dialects (wr : String → Bool) (c : ℤ)
    (hc : c = 1 ∨ c = 2) :
    (SiglentSDG1000X.set_frequency wr (PyValue.int c) (PyValue.int 2)
        (PyValue.freqUnit FrequencyUnit.KHZ)).1 =
      ["C" ++ toString c ++ ":BSWV FRQ,2000"] ∧
    (RigolDG1000Z.set_frequency wr (PyValue.int c) (PyValue.int 2)
        (PyValue.freqUnit FrequencyUnit.KHZ)).1 =
      ["SOUR" ++ toString c ++ ":FREQ 2KHZ"] ∧
    (∀ f : PyValue, isNumV f = true →
      toRat (SiglentSDG1000X.convert_frequency f (PyValue.freqUnit FrequencyUnit.HZ)) =
        toRat f * 1 ∧
      toRat (SiglentSDG1000X.convert_frequency f (PyValue.freqUnit FrequencyUnit.KHZ)) =
        toRat f * 1000 ∧
      toRat (SiglentSDG1000X.convert_frequency f (PyValue.freqUnit FrequencyUnit.MHZ)) =
        toRat f * 1000000) := by
  refine ⟨?_, ?_, ?_⟩
  · rcases hc with h | h <;> subst h <;> rfl
  · rcases hc with h | h <;> subst h <;> rfl
  · intro f hf
    cases f <;> simp [isNumV, isFloatV, isIntV] at hf <;>
      simp [SiglentSDG1000X.convert_frequency, toRat]

/-- C4 witness: the theorem applied at channel 1 and `frequency = 2` as an
int. -/
theorem C4_frequency_unit_witness :
    (SiglentSDG1000X.set_frequency (fun _ => false) (PyValue.int 1) (PyValue.int 2)
        (PyValue.freqUnit FrequencyUnit.KHZ)).1 = ["C1:BSWV FRQ,2000"] ∧
    toRat (SiglentSDG1000X.convert_frequency (PyValue.int 2)
        (PyValue.freqUnit FrequencyUnit.KHZ)) = toRat (PyValue.int 2) * 1000 :=
  ⟨(C4_frequency_unit_dialects (fun _ => false) 1 (Or.inl rfl)).1,
   (((C4_frequency_unit_dialects (fun _ => false) 1 (Or.inl rfl)).2.2
      (PyValue.int 2) rfl).2).1⟩

/-! ### Claim C5 -/

theorem writeReraise_err_eq (wr : String → Bool) (cmd : String) (e : PyErr)
    (h : writeReraise wr cmd = Except.error e) : e = PyErr.transportErr := by
  unfold writeReraise at h
  split at h
  · cases h
    rfl
  · cases h

/-- The errors that can escape `get_channel_wave_parameter` (transport,
index and key lookup failures) are not validation errors. -/
theorem getWave_err (qr : String → Option String) (ch : PyValue) (p : String) (e : PyErr)
    (h : (SiglentSDG1000X.get_channel_wave_parameter qr ch p).2 = Except.error e) :
    e.isValidationErr = false := by
  unfold SiglentSDG1000X.get_channel_wave_parameter at h
  dsimp only at h
  split at h
  · cases h
    rfl
  · exact parseWaveResponse_err _ _ _ h

/-- C5: for every operation of both vendor classes, if the outcome is a
validation error (invalid channel, wrong argument type / wrong
enumeration, out-of-range value), then the trace of commands handed to
the transport is empty: no command at all reached the device.  For
`get_channel_wave_parameter` and the Siglent `sync_phase` the statement
holds vacuously — they perform no validation, and none of the errors they
can raise is a validation error. -/
theorem C5_validation_before_transport (wr : String → Bool)
    (qr : String → Option String) (ch v u : PyValue) (p : String) (e : PyErr)
    (hv : e.isValidationErr = true) :
    ((RigolDG1000Z.set_amplitude wr ch v u).2 = Except.error e →
      (RigolDG1000Z.set_amplitude wr ch v u).1 = []) ∧
    ((RigolDG1000Z.set_burst_delay wr ch v).2 = Except.error e →
      (RigolDG1000Z.set_burst_delay wr ch v).1 = []) ∧
    ((RigolDG1000Z.set_burst_mode wr ch v).2 = Except.error e →
      (RigolDG1000Z.set_burst_mode wr ch v).1 = []) ∧
    ((RigolDG1000Z.set_burst_period wr ch v).2 = Except.error e →
      (RigolDG1000Z.set_burst_period wr ch v).1 = []) ∧
    ((RigolDG1000Z.set_burst_state wr ch v).2 = Except.error e →
      (RigolDG1000Z.set_burst_state wr ch v).1 = []) ∧
    ((RigolDG1000Z.set_burst_trigger_source wr ch v).2 = Except.error e →
      (RigolDG1000Z.set_burst_trigger_source wr ch v).1 = []) ∧
    ((RigolDG1000Z.set_frequency wr ch v u).2 = Except.error e →
      (RigolDG1000Z.set_frequency wr ch v u).1 = []) ∧
    ((RigolDG1000Z.set_offset wr ch v).2 = Except.error e →
      (RigolDG1000Z.set_offset wr ch v).1 = []) ∧
    ((RigolDG1000Z.set_output wr ch v).2 = Except.error e →
      (RigolDG1000Z.set_output wr ch v).1 = []) ∧
    ((RigolDG1000Z.set_output_load wr ch v).2 = Except.error e →
      (RigolDG1000Z.set_output_load wr ch v).1 = []) ∧
    ((RigolDG1000Z.set_phase wr ch v).2 = Except.error e →
      (RigolDG1000Z.set_phase wr ch v).1 = []) ∧
    ((RigolDG1000Z.set_waveform wr ch v).2 = Except.error e →
      (RigolDG1000Z.set_waveform wr ch v).1 = []) ∧
    ((RigolDG1000Z.sync_phase wr ch).2 = Except.error e →
      (RigolDG1000Z.sync_phase wr ch).1 = []) ∧
    ((RigolDG1000Z.trigger_burst wr ch).2 = Except.error e →
      (RigolDG1000Z.trigger_burst wr ch).1 = []) ∧
    ((SiglentSDG1000X.set_amplitude wr ch v u).2 = Except.error e →
      (SiglentSDG1000X.set_amplitude wr ch v u).1 = []) ∧
    ((SiglentSDG1000X.set_burst_delay wr ch v).2 = Except.error e →
      (SiglentSDG1000X.set_burst_delay wr ch v).1 = []) ∧
    ((SiglentSDG1000X.set_burst_mode wr ch v).2 = Except.error e →
      (SiglentSDG1000X.set_burst_mode wr ch v).1 = []) ∧
    ((SiglentSDG1000X.set_burst_period wr ch v).2 = Except.error e →
      (SiglentSDG1000X.set_burst_period wr ch v).1 = []) ∧
    ((SiglentSDG1000X.set_burst_state wr ch v).2 = Except.error e →
      (SiglentSDG1000X.set_burst_state wr ch v).1 = []) ∧
    ((SiglentSDG1000X.set_burst_trigger_source wr ch v).2 = Except.error e →
      (SiglentSDG1000X.set_burst_trigger_source wr ch v).1 = []) ∧
    ((SiglentSDG1000X.set_frequency wr ch v u).2 = Except.error e →
      (SiglentSDG1000X.set_frequency wr ch v u).1 = []) ∧
    ((SiglentSDG1000X.set_offset wr ch v).2 = Except.error e →
      (SiglentSDG1000X.set_offset wr ch v).1 = []) ∧
    ((SiglentSDG1000X.set_output wr ch v).2 = Except.error e →
      (SiglentSDG1000X.set_output wr ch v).1 = []) ∧
    ((SiglentSDG1000X.set_output_load wr ch v).2 = Except.error e →
      (SiglentSDG1000X.set_output_load wr ch v).1 = []) ∧
    ((SiglentSDG1000X.set_phase wr ch v).2 = Except.error e →
      (SiglentSDG1000X.set_phase wr ch v).1 = []) ∧
    ((SiglentSDG1000X.set_waveform wr ch v).2 = Except.error e →
      (SiglentSDG1000X.set_waveform wr ch v).1 = []) ∧
    ((SiglentSDG1000X.sync_phase wr ch).2 = Except.error e →
      (SiglentSDG1000X.sync_phase wr ch).1 = []) ∧
    ((SiglentSDG1000X.trigger_burst wr ch).2 = Except.error e →
      (SiglentSDG1000X.trigger_burst wr ch).1 = []) ∧
    ((SiglentSDG1000X.get_channel_wave_parameter qr ch p).2 = Except.error e →
      (SiglentSDG1000X.get_channel_wave_parameter qr ch p).1 = []) := by
  refine ⟨?_, ?_, ?_, ?_, ?_, ?_, ?_, ?_, ?_, ?_, ?_, ?_, ?_, ?_, ?_, ?_, ?_, ?_, ?_, ?_,
    ?_, ?_, ?_, ?_, ?_, ?_, ?_, ?_, ?_⟩
  all_goals intro h
  all_goals first
    | exact guarded_reraise_validation _ wr _ e h hv
    | exact guarded_logged_validation _ wr _ e h hv
    | (rw [writeReraise_err_eq wr "EQPHASE" e h] at hv
       simp [PyErr.isValidationErr] at hv)
    | (rw [getWave_err qr ch p e h] at hv
       simp at hv)

/-- C5 witness: the theorem applied to an invalid channel. -/
theorem C5_validation_before_transport_witness :
    (RigolDG1000Z.set_amplitude (fun _ => false) (PyValue.int 3) (PyValue.int 0)
        (PyValue.ampUnit AmplitudeUnit.VPP)).1 = [] :=
  (C5_validation_before_transport (fun _ => false) (fun _ => Option.none)
    (PyValue.int 3) (PyValue.int 0) (PyValue.ampUnit AmplitudeUnit.VPP) "x"
    (PyErr.invalidChannelNumber (PyValue.int 3)) rfl).1 rfl

/-! ### Claim C6 -/

/-- C6: with a valid channel and a float/int amplitude, every amplitude
value outside the closed interval `[-10, 10]` makes `set_amplitude` of
both vendor classes fail with the out-of-range `ValueError` and an empty
trace, while the boundary values `-10` and `10` pass validation and
produce a command. -/
theorem C6_amplitude_range (wr : String → Bool) (c a : PyValue) (u : AmplitudeUnit)
    (hc : channelOk c = true) (ha : isNumV a = true) :
    (¬ ((-10 : ℚ) ≤ toRat a ∧ toRat a ≤ 10) →
      RigolDG1000Z.set_amplitude wr c a (PyValue.ampUnit u) =
        ([], Except.error (PyErr.valueErr "amplitude must be between -/+ 10")) ∧
      SiglentSDG1000X.set_amplitude wr c a (PyValue.ampUnit u) =
        ([], Except.error (PyErr.valueErr "amplitude must be between -/+ 10"))) ∧
    (toRat a = -10 ∨ toRat a = 10 →
      (RigolDG1000Z.set_amplitude wr c a (PyValue.ampUnit u)).1 ≠ [] ∧
      (SiglentSDG1000X.set_amplitude wr c a (PyValue.ampUnit u)).1 ≠ []) := by
  have ha' : (isFloatV a || isIntV a) = true := ha
  constructor
  · intro h
    constructor <;>
      simp [RigolDG1000Z.set_amplitude, SiglentSDG1000X.set_amplitude, guarded, hc, ha', h,
        isAmplitudeUnit, VErr.toPyErr]
  · intro hb
    have hr : (-10 : ℚ) ≤ toRat a ∧ toRat a ≤ 10 := by
      rcases hb with h | h <;> rw [h] <;> norm_num
    constructor <;>
      simp [RigolDG1000Z.set_amplitude, SiglentSDG1000X.set_amplitude, guarded,
        hc, ha', hr, isAmplitudeUnit]

/-- C6 witness: amplitude 11 is rejected out of range, amplitude 10 is
accepted. -/
theorem C6_amplitude_range_witness :
    RigolDG1000Z.set_amplitude (fun _ => false) (PyValue.int 1) (PyValue.int 11)
        (PyValue.ampUnit AmplitudeUnit.VPP) =
      ([], Except.error (PyErr.valueErr "amplitude must be between -/+ 10")) ∧
    (RigolDG1000Z.set_amplitude (fun _ => false) (PyValue.int 1) (PyValue.int 10)
        (PyValue.ampUnit AmplitudeUnit.VPP)).1 ≠ [] :=
  ⟨((C6_amplitude_range (fun _ => false) (PyValue.int 1) (PyValue.int 11)
      AmplitudeUnit.VPP rfl rfl).1 (by norm_num [toRat])).1,
   ((C6_amplitude_range (fun _ => false) (PyValue.int 1) (PyValue.int 10)
      AmplitudeUnit.VPP rfl rfl).2 (Or.inr (by norm_num [toRat]))).1⟩

/-! ### Claim C7 -/

/-- C7: with a valid channel and a float/int phase, every phase value
whose absolute value lies outside `[0, 360]` makes `set_phase` of both
vendor classes fail with the out-of-range `ValueError` and an empty
trace, while the values `0` and `360` pass validation and produce a
command. -/
theorem C7_phase_range (wr : String → Bool) (c p : PyValue)
    (hc : channelOk c = true) (hp : isNumV p = true) :
    (¬ ((0 : ℚ) ≤ |toRat p| ∧ |toRat p| ≤ 360) →
      RigolDG1000Z.set_phase wr c p =
        ([], Except.error (PyErr.valueErr "phase must be between 0 and 360")) ∧
      SiglentSDG1000X.set_phase wr c p =
        ([], Except.error (PyErr.valueErr "phase must be between 0 and 360"))) ∧
    (toRat p = 0 ∨ toRat p = 360 →
      (RigolDG1000Z.set_phase wr c p).1 ≠ [] ∧
      (SiglentSDG1000X.set_phase wr c p).1 ≠ []) := by
  have hp' : (isFloatV p || isIntV p) = true := hp
  constructor
  · intro h
    have h' : 360 < |toRat p| := by
      by_contra hle
      exact h ⟨abs_nonneg _, le_of_not_lt hle⟩
    constructor <;>
      simp [RigolDG1000Z.set_phase, SiglentSDG1000X.set_phase, guarded, hc, hp', h',
        VErr.toPyErr]
  · intro hb
    have hr : (0 : ℚ) ≤ |toRat p| ∧ |toRat p| ≤ 360 := by
      rcases hb with h | h <;> rw [h] <;> norm_num
    constructor <;>
      simp [RigolDG1000Z.set_phase, SiglentSDG1000X.set_phase, guarded, hc, hp', hr]

/-- C7 witness: phase 361 is rejected out of range, phase 360 is
accepted. -/
theorem C7_phase_range_witness :
    RigolDG1000Z.set_phase (fun _ => false) (PyValue.int 1) (PyValue.int 361) =
      ([], Except.error (PyErr.valueErr "phase must be between 0 and 360")) ∧
    (SiglentSDG1000X.set_phase (fun _ => false) (PyValue.int 1)
        (PyValue.int 360)).1 ≠ [] :=
  ⟨((C7_phase_range (fun _ => false) (PyValue.int 1) (PyValue.int 361) rfl rfl).1
      (by norm_num [toRat])).1,
   ((C7_phase_range (fun _ => false) (PyValue.int 1) (PyValue.int 360) rfl rfl).2
      (Or.inr (by norm_num [toRat]))).2⟩

/-! ### Claim C8 -/

/-- C8: passing either member of the high-impedance `OutputLoad` sentinel
to `set_output_load` on a valid channel makes the Rigol class send the
literal token `INF` (`OUTP{ch}:LOAD INF`) and the Siglent class the
literal token `HZ` (`C{ch}:OUTP LOAD,HZ`) — two different vendor-specific
tokens, not a shared one. -/
theorem C8_output_load_sentinel (wr : String → Bool) (c : PyValue)
    (hc : channelOk c = true) (l : OutputLoad) :
    (RigolDG1000Z.set_output_load wr c (PyValue.outputLoad l)).1 =
      ["OUTP" ++ pyStr c ++ ":LOAD " ++ "INF"] ∧
    (SiglentSDG1000X.set_output_load wr c (PyValue.outputLoad l)).1 =
      ["C" ++ pyStr c ++ ":OUTP LOAD," ++ "HZ"] ∧
    ("INF" : String) ≠ "HZ" := by
  refine ⟨?_, ?_, by decide⟩ <;>
    simp [RigolDG1000Z.set_output_load, SiglentSDG1000X.set_output_load,
      RigolDG1000Z.loadToken, SiglentSDG1000X.loadToken, guarded, hc,
      isFloatV, isIntV, isOutputLoadV]

/-- C8 witness: the theorem applied at channel 2 with the `INF` member. -/
theorem C8_output_load_sentinel_witness :
    (RigolDG1000Z.set_output_load (fun _ => false) (PyValue.int 2)
        (PyValue.outputLoad OutputLoad.INF)).1 = ["OUTP2:LOAD INF"] ∧
    (SiglentSDG1000X.set_output_load (fun _ => false) (PyValue.int 2)
        (PyValue.outputLoad OutputLoad.INF)).1 = ["C2:OUTP LOAD,HZ"] :=
  ⟨(C8_output_load_sentinel (fun _ => false) (PyValue.int 2) rfl OutputLoad.INF).1,
   (C8_output_load_sentinel (fun _ => false) (PyValue.int 2) rfl OutputLoad.INF).2.1⟩

/-! ### Claim C9 -/

/-- C9: with a valid channel and valid numeric arguments, passing a value
that is not a member of the enumeration declared for a symbolic parameter
of that vendor — amplitude unit, frequency unit, waveform type, burst
mode (`BurstModeRigol` for Rigol, `BurstModeSiglent` for Siglent, so a
`BurstModeRigol` member handed to the Siglent class is rejected too), and
burst trigger source — makes the operation fail with a `TypeError` whose
message names the expected enumeration, with an empty trace: the value is
never coerced into a command. -/
theorem C9_wrong_enum_rejected (wr : String → Bool) (ch a f v : PyValue)
    (hc : channelOk ch = true)
    (ha : isNumV a = true) (har : (-10 : ℚ) ≤ toRat a ∧ toRat a ≤ 10)
    (hf : isNumV f = true) (hfr : ¬ (toRat f < 0)) :
    (isAmplitudeUnit v = false →
      RigolDG1000Z.set_amplitude wr ch a v =
        ([], Except.error (PyErr.typeErr "unit must be enum of type AmplitudeUnit. Hint: have you forgotten to import AmplitudeType from pyawg?")) ∧
      SiglentSDG1000X.set_amplitude wr ch a v =
        ([], Except.error (PyErr.typeErr "unit must be enum of type AmplitudeUnit. Hint: have you forgotten to import AmplitudeType from pyawg?"))) ∧
    (isFrequencyUnit v = false →
      RigolDG1000Z.set_frequency wr ch f v =
        ([], Except.error (PyErr.typeErr "unit must be enum of type FrequencyUnit. Hint: did you forget to import FrequencyUnit from pyawg?")) ∧
      SiglentSDG1000X.set_frequency wr ch f v =
        ([], Except.error (PyErr.typeErr "unit must be enum of type FrequencyUnit. Hint: did you forget to import FrequencyUnit from pyawg?"))) ∧
    (isWaveformTypeV v = false →
      RigolDG1000Z.set_waveform wr ch v =
        ([], Except.error (PyErr.typeErr "waveform_type must be enum of type WaveformType. Hint: have you forgotten to import WaveformType from pyawg?")) ∧
      SiglentSDG1000X.set_waveform wr ch v =
        ([], Except.error (PyErr.typeErr "waveform_type must be enum of type WaveformType. Hint: have you forgotten to import WaveformType from pyawg?"))) ∧
    (isBurstModeRigolV v = false →
      RigolDG1000Z.set_burst_mode wr ch v =
        ([], Except.error (PyErr.typeErr "burst_mode must be enum of type BurstModeRigol. Hint: have you forgotten to import BurstModeRigol from pyawg?"))) ∧
    (isBurstModeSiglentV v = false →
      SiglentSDG1000X.set_burst_mode wr ch v =
        ([], Except.error (PyErr.typeErr "burst_mode must be enum of type BurstModeSiglent. Hint: have you forgotten to import BurstModeSiglent from pyawg?"))) ∧
    (isBurstTriggerSourceV v = false →
      RigolDG1000Z.set_burst_trigger_source wr ch v =
        ([], Except.error (PyErr.typeErr "trigger_source must be enum of type BurstTriggerSource. Hint: have you forgotten to import BurstTriggerSource from pyawg?")) ∧
      SiglentSDG1000X.set_burst_trigger_source wr ch v =
        ([], Except.error (PyErr.typeErr "trigger_source must be enum of type BurstTriggerSource. Hint: have you forgotten to import BurstTriggerSource from pyawg?"))) := by
  have ha' : (isFloatV a || isIntV a) = true := ha
  have hf' : (isFloatV f || isIntV f) = true := hf
  refine ⟨fun hv => ⟨?_, ?_⟩, fun hv => ⟨?_, ?_⟩, fun hv => ⟨?_, ?_⟩, fun hv => ?_,
    fun hv => ?_, fun hv => ⟨?_, ?_⟩⟩ <;>
    simp [RigolDG1000Z.set_amplitude, SiglentSDG1000X.set_amplitude,
      RigolDG1000Z.set_frequency, SiglentSDG1000X.set_frequency,
      RigolDG1000Z.set_waveform, SiglentSDG1000X.set_waveform,
      RigolDG1000Z.set_burst_mode, SiglentSDG1000X.set_burst_mode,
      RigolDG1000Z.set_burst_trigger_source, SiglentSDG1000X.set_burst_trigger_source,
      guarded, hc, ha', har, hf', hfr, hv, VErr.toPyErr]

/-- C9 witness: a `WaveformType` member where a `BurstModeRigol` member is
expected, and a `BurstModeRigol` member handed to the Siglent class. -/
theorem C9_wrong_enum_rejected_witness :
    RigolDG1000Z.set_burst_mode (fun _ => false) (PyValue.int 1)
        (PyValue.waveform WaveformType.SINE) =
      ([], Except.error (PyErr.typeErr "burst_mode must be enum of type BurstModeRigol. Hint: have you forgotten to import BurstModeRigol from pyawg?")) ∧
    SiglentSDG1000X.set_burst_mode (fun _ => false) (PyValue.int 1)
        (PyValue.burstModeR BurstModeRigol.TRIGGERED) =
      ([], Except.error (PyErr.typeErr "burst_mode must be enum of type BurstModeSiglent. Hint: have you forgotten to import BurstModeSiglent from pyawg?")) :=
  ⟨(C9_wrong_enum_rejected (fun _ => false) (PyValue.int 1) (PyValue.int 1)
      (PyValue.int 1) (PyValue.waveform WaveformType.SINE) rfl rfl
      (by norm_num [toRat]) rfl (by norm_num [toRat])).2.2.2.1 rfl,
   (C9_wrong_enum_rejected (fun _ => false) (PyValue.int 1) (PyValue.int 1)
      (PyValue.int 1) (PyValue.burstModeR BurstModeRigol.TRIGGERED) rfl rfl
      (by norm_num [toRat]) rfl (by norm_num [toRat])).2.2.2.2.1 rfl⟩

/-! ### Claim C10 -/

/-- C10 counterexample: `SiglentSDG1000X.sync_phase` ignores its channel
argument entirely, so the boolean channel `True` is not rejected: the
method writes `EQPHASE` and returns normally instead of raising
`InvalidChannelNumber` — refuting the claim that a bool channel is
rejected "in every operation of both vendor classes". -/
theorem C10_counterexample_sync_phase_accepts_bool_channel :
    SiglentSDG1000X.sync_phase (fun _ => false) (PyValue.bool true) =
      (["EQPHASE"], Except.ok ()) :=
  rfl

/-- C10 (amended): because every numeric and channel validation uses an
exact `type(x) is T` identity check, a Python bool is always rejected
where an int/float is expected, in every operation that performs the
check: a bool channel (including `True`, which equals `1` in Python)
raises `InvalidChannelNumber` in every channel-validating operation of
both vendor classes (all of them except `SiglentSDG1000X.sync_phase` and
`SiglentSDG1000X.get_channel_wave_parameter`, which never inspect the
channel), and a bool amplitude, frequency, delay, period, phase or offset
raises a `TypeError` in the corresponding setters of both classes. -/
theorem C10_bool_arguments_rejected (wr : String → Bool) (b : Bool)
    (ch v u : PyValue) (hc : channelOk ch = true) :
    RigolDG1000Z.set_amplitude wr (PyValue.bool b) v u =
      ([], Except.error (PyErr.invalidChannelNumber (PyValue.bool b))) ∧
    RigolDG1000Z.set_burst_delay wr (PyValue.bool b) v =
      ([], Except.error (PyErr.invalidChannelNumber (PyValue.bool b))) ∧
    RigolDG1000Z.set_burst_mode wr (PyValue.bool b) v =
      ([], Except.error (PyErr.invalidChannelNumber (PyValue.bool b))) ∧
    RigolDG1000Z.set_burst_period wr (PyValue.bool b) v =
      ([], Except.error (PyErr.invalidChannelNumber (PyValue.bool b))) ∧
    RigolDG1000Z.set_burst_state wr (PyValue.bool b) v =
      ([], Except.error (PyErr.invalidChannelNumber (PyValue.bool b))) ∧
    RigolDG1000Z.set_burst_trigger_source wr (PyValue.bool b) v =
      ([], Except.error (PyErr.invalidChannelNumber (PyValue.bool b))) ∧
    RigolDG1000Z.set_frequency wr (PyValue.bool b) v u =
      ([], Except.error (PyErr.invalidChannelNumber (PyValue.bool b))) ∧
    RigolDG1000Z.set_offset wr (PyValue.bool b) v =
      ([], Except.error (PyErr.invalidChannelNumber (PyValue.bool b))) ∧
    RigolDG1000Z.set_output wr (PyValue.bool b) v =
      ([], Except.error (PyErr.invalidChannelNumber (PyValue.bool b))) ∧
    RigolDG1000Z.set_output_load wr (PyValue.bool b) v =
      ([], Except.error (PyErr.invalidChannelNumber (PyValue.bool b))) ∧
    RigolDG1000Z.set_phase wr (PyValue.bool b) v =
      ([], Except.error (PyErr.invalidChannelNumber (PyValue.bool b))) ∧
    RigolDG1000Z.set_waveform wr (PyValue.bool b) v =
      ([], Except.error (PyErr.invalidChannelNumber (PyValue.bool b))) ∧
    RigolDG1000Z.sync_phase wr (PyValue.bool b) =
      ([], Except.error (PyErr.invalidChannelNumber (PyValue.bool b))) ∧
    RigolDG1000Z.trigger_burst wr (PyValue.bool b) =
      ([], Except.error (PyErr.invalidChannelNumber (PyValue.bool b))) ∧
    SiglentSDG1000X.set_amplitude wr (PyValue.bool b) v u =
      ([], Except.error (PyErr.invalidChannelNumber (PyValue.bool b))) ∧
    SiglentSDG1000X.set_burst_delay wr (PyValue.bool b) v =
      ([], Except.error (PyErr.invalidChannelNumber (PyValue.bool b))) ∧
    SiglentSDG1000X.set_burst_mode wr (PyValue.bool b) v =
      ([], Except.error (PyErr.invalidChannelNumber (PyValue.bool b))) ∧
    SiglentSDG1000X.set_burst_period wr (PyValue.bool b) v =
      ([], Except.error (PyErr.invalidChannelNumber (PyValue.bool b))) ∧
    SiglentSDG1000X.set_burst_state wr (PyValue.bool b) v =
      ([], Except.error (PyErr.invalidChannelNumber (PyValue.bool b))) ∧
    SiglentSDG1000X.set_burst_trigger_source wr (PyValue.bool b) v =
      ([], Except.error (PyErr.invalidChannelNumber (PyValue.bool b))) ∧
    SiglentSDG1000X.set_frequency wr (PyValue.bool b) v u =
      ([], Except.error (PyErr.invalidChannelNumber (PyValue.bool b))) ∧
    SiglentSDG1000X.set_offset wr (PyValue.bool b) v =
      ([], Except.error (PyErr.invalidChannelNumber (PyValue.bool b))) ∧
    SiglentSDG1000X.set_output wr (PyValue.bool b) v =
      ([], Except.error (PyErr.invalidChannelNumber (PyValue.bool b))) ∧
    SiglentSDG1000X.set_output_load wr (PyValue.bool b) v =
      ([], Except.error (PyErr.invalidChannelNumber (PyValue.bool b))) ∧
    SiglentSDG1000X.set_phase wr (PyValue.bool b) v =
      ([], Except.error (PyErr.invalidChannelNumber (PyValue.bool b))) ∧
    SiglentSDG1000X.set_waveform wr (PyValue.bool b) v =
      ([], Except.error (PyErr.invalidChannelNumber (PyValue.bool b))) ∧
    SiglentSDG1000X.trigger_burst wr (PyValue.bool b) =
      ([], Except.error (PyErr.invalidChannelNumber (PyValue.bool b))) ∧
    RigolDG1000Z.set_amplitude wr ch (PyValue.bool b) u =
      ([], Except.error (PyErr.typeErr "amplitude must be float or int; received <class bool>")) ∧
    SiglentSDG1000X.set_amplitude wr ch (PyValue.bool b) u =
      ([], Except.error (PyErr.typeErr "amplitude must be float or int; received <class bool>")) ∧
    RigolDG1000Z.set_burst_delay wr ch (PyValue.bool b) =
      ([], Except.error (PyErr.typeErr "delay must be float or int; received <class bool>")) ∧
    SiglentSDG1000X.set_burst_delay wr ch (PyValue.bool b) =
      ([], Except.error (PyErr.typeErr "delay must be float or int; received <class bool>")) ∧
    RigolDG1000Z.set_burst_period wr ch (PyValue.bool b) =
      ([], Except.error (PyErr.typeErr "period must be float or int; received <class bool>")) ∧
    SiglentSDG1000X.set_burst_period wr ch (PyValue.bool b) =
      ([], Except.error (PyErr.typeErr "period must be float or int; received <class bool>")) ∧
    RigolDG1000Z.set_frequency wr ch (PyValue.bool b) u =
      ([], Except.error (PyErr.typeErr "frequency must be float or int; received <class bool>")) ∧
    SiglentSDG1000X.set_frequency wr ch (PyValue.bool b) u =
      ([], Except.error (PyErr.typeErr "frequency must be float or int; received <class bool>")) ∧
    RigolDG1000Z.set_offset wr ch (PyValue.bool b) =
      ([], Except.error (PyErr.typeErr "offset_voltage must be float or int; received <class bool>")) ∧
    SiglentSDG1000X.set_offset wr ch (PyValue.bool b) =
      ([], Except.error (PyErr.typeErr "offset_voltage must be float or int; received <class bool>")) ∧
    RigolDG1000Z.set_phase wr ch (PyValue.bool b) =
      ([], Except.error (PyErr.typeErr "phase must be float or int; received <class bool>")) ∧
    SiglentSDG1000X.set_phase wr ch (PyValue.bool b) =
      ([], Except.error (PyErr.typeErr "phase must be float or int; received <class bool>")) := by
  refine ⟨?_, ?_, ?_, ?_, ?_, ?_, ?_, ?_, ?_, ?_, ?_, ?_, ?_, ?_, ?_, ?_, ?_, ?_, ?_, ?_,
    ?_, ?_, ?_, ?_, ?_, ?_, ?_, ?_, ?_, ?_, ?_, ?_, ?_, ?_, ?_, ?_, ?_, ?_, ?_⟩
  all_goals first
    | exact guarded_channel_guard (PyValue.bool b) _ _ rfl
    | simp [RigolDG1000Z.set_amplitude, SiglentSDG1000X.set_amplitude,
        RigolDG1000Z.set_burst_delay, SiglentSDG1000X.set_burst_delay,
        RigolDG1000Z.set_burst_period, SiglentSDG1000X.set_burst_period,
        RigolDG1000Z.set_frequency, SiglentSDG1000X.set_frequency,
        RigolDG1000Z.set_offset, SiglentSDG1000X.set_offset,
        RigolDG1000Z.set_phase, SiglentSDG1000X.set_phase,
        guarded, hc, isFloatV, isIntV, typeName, VErr.toPyErr]

/-- C10 witness: the amended theorem applied with the bool channel `True`
and a bool amplitude on the valid channel 1. -/
theorem C10_bool_arguments_witness :
    RigolDG1000Z.set_amplitude (fun _ => false) (PyValue.bool true) (PyValue.int 0)
        (PyValue.ampUnit AmplitudeUnit.VPP) =
      ([], Except.error (PyErr.invalidChannelNumber (PyValue.bool true))) ∧
    RigolDG1000Z.set_amplitude (fun _ => false) (PyValue.int 1) (PyValue.bool true)
        (PyValue.ampUnit AmplitudeUnit.VPP) =
      ([], Except.error (PyErr.typeErr "amplitude must be float or int; received <class bool>")) :=
  ⟨(C10_bool_arguments_rejected (fun _ => false) true (PyValue.int 1) (PyValue.int 0)
      (PyValue.ampUnit AmplitudeUnit.VPP) rfl).1,
   (C10_bool_arguments_rejected (fun _ => false) true (PyValue.int 1) (PyValue.int 0)
      (PyValue.ampUnit AmplitudeUnit.VPP) rfl).2.2.2.2.2.2.2.2.2.2.2.2.2.2.2.2.2.2.2.2.2.2.2.2.2.2.2.1⟩

end Pyawg
